import Mathlib

/-!
Verification development for the cloud-renderer media pipeline (src/app.py).

The Python source is shallowly embedded: payloads become a JSON-like tree
type, Python truthiness and `dict.get` are modelled explicitly, network and
subprocess effects become explicit oracle functions, and each relevant
source function becomes a Lean definition carrying the source location it
embeds in its doc comment.
-/

namespace CloudRenderer

/-- JSON-like values: the shape of decoded webhook payloads and of decoded
vendor-API responses (`request.get_json`, `r.json()`). -/
inductive JVal where
  | s (v : String)
  | n (v : Int)
  | b (v : Bool)
  | null
  | arr (xs : List JVal)
  | obj (kvs : List (String × JVal))
deriving Repr

/-- Python truthiness of a value (`if x:`): empty string, zero, False, None
and empty containers are falsy. -/
def pyTruthy : JVal → Bool
  | .s v => !(v == "")
  | .n v => !(v == 0)
  | .b v => v
  | .null => false
  | .arr xs => !xs.isEmpty
  | .obj kvs => !kvs.isEmpty

/-- `dict.get(k)` returning `None` for a missing key is modelled as
`Option JVal` (first matching key wins; Python dict keys are unique). -/
def getOpt (kvs : List (String × JVal)) (k : String) : Option JVal :=
  match kvs with
  | [] => none
  | (k', v) :: rest => if k' = k then some v else getOpt rest k

/-- `dict.get(k)` with Python `None` represented as `JVal.null`. -/
def pyGet (kvs : List (String × JVal)) (k : String) : JVal :=
  (getOpt kvs k).getD .null

/-- Python `a or b`: `a` when truthy, else `b`. -/
def pyOr (a b : JVal) : JVal :=
  if pyTruthy a then a else b

/-- Truthiness of an optional value (`None` is falsy). -/
def optTruthy : Option JVal → Bool
  | none => false
  | some v => pyTruthy v

/-- Python `str(x)` as used in f-strings and `.format`.  Faithful on strings,
ints, bools and None; container rendering is an approximation (the code only
applies `str` to scalar identifier/mime fields on the paths the claims
exercise). -/
def pyStr : JVal → String
  | .s v => v
  | .n v => toString v
  | .b true => "True"
  | .b false => "False"
  | .null => "None"
  | .arr _ => "[...]"
  | .obj _ => "\x7b...\x7d"

/-! ### Character/string utilities

The Python code matches URLs with `re` patterns and `str` methods; these are
embedded as executable functions over `List Char`, with ASCII-only case
folding (the patterns only ever compare ASCII letters). -/

/-- ASCII lower-casing of one character (`str.lower` restricted to ASCII,
which is all the URL/extension matching in the source needs). -/
def lcChar (c : Char) : Char :=
  if 'A' ≤ c ∧ c ≤ 'Z' then Char.ofNat (c.toNat + 32) else c

/-- ASCII lower-casing of a character list. -/
def lcList (cs : List Char) : List Char := cs.map lcChar

/-- Case-sensitive list-prefix test. -/
def leadEq : List Char → List Char → Bool
  | [], _ => true
  | _ :: _, [] => false
  | a :: as, b :: bs => a == b && leadEq as bs

/-- Case-insensitive prefix test: `pat` is given lower-cased and is compared
against the lower-casing of the scanned text (models `re.I`). -/
def leadCI : List Char → List Char → Bool
  | [], _ => true
  | _ :: _, [] => false
  | p :: ps, c :: cs => p == lcChar c && leadCI ps cs

/-- Substring occurrence test (`needle in haystack` for Python strings). -/
def subOf (pat : List Char) : List Char → Bool
  | [] => pat.isEmpty
  | c :: cs => leadEq pat (c :: cs) || subOf pat cs

/-- `str.endswith(suffix)`. -/
def endsWithList (suf l : List Char) : Bool :=
  leadEq suf.reverse l.reverse

/-- `str.rstrip('/')`: drop trailing slashes. -/
def rstripSlashes (s : String) : String :=
  String.mk ((s.toList.reverse.dropWhile (fun c => c == '/')).reverse)

/-- `os.path.basename`: the part after the last `/`. -/
def basename (s : String) : String :=
  String.mk ((s.toList.reverse.takeWhile (fun c => !(c == '/'))).reverse)

/-! ### The four regex scans of `_scrape_mp4_from_html` (src/app.py 137-149)

`MP4_RE = re.compile(r'https?://[^"\']+\.mp4[^"\']*', re.I)`.

A match of `MP4_RE` starting at a given position is: `http` or `https` (case-
insensitive), `://`, then the maximal run of non-quote characters, provided
that run contains `.mp4` at index ≥ 1 (the `[^"\']+` must consume at least
one character before the literal `.mp4`, and greedy backtracking extends the
trailing `[^"\']*` over the whole remaining run).  `findall` scans left to
right, resuming after each match. -/

/-- Match `https?://` case-insensitively at the head; returns the matched
characters (as written in the input) and the rest. -/
def matchHttpStart (cs : List Char) : Option (List Char × List Char) :=
  if leadCI "https://".toList cs then some (cs.take 8, cs.drop 8)
  else if leadCI "http://".toList cs then some (cs.take 7, cs.drop 7)
  else none

/-- Maximal run of characters not in the excluded set, plus the rest. -/
def takeRun (bad : Char → Bool) (cs : List Char) : List Char × List Char :=
  (cs.takeWhile (fun c => !bad c), cs.dropWhile (fun c => !bad c))

/-- Does `.mp4` occur (case-insensitively) at some index ≥ 1? -/
def hasMp4Tail : List Char → Bool
  | [] => false
  | _ :: rest => leadCI ".mp4".toList rest || hasMp4Tail rest

/-- Characters excluded by `[^"\']`. -/
def isQuoteC (c : Char) : Bool := c == '"' || c == '\''

/-- One match of the URL token `https?://[excl]+\.mp4[excl]*` at the head of
the input, where `excl` is the excluded-character set (`"` and the single
quote for `MP4_RE`, `"` alone for the JSON-string variant). -/
def matchUrlToken (bad : Char → Bool) (cs : List Char) : Option (List Char × List Char) :=
  match matchHttpStart cs with
  | none => none
  | some (pre, rest) =>
    let (run, rest2) := takeRun bad rest
    if hasMp4Tail run then some (pre ++ run, rest2) else none

/-- `re.findall`-style scan: try `step` at every position, emit each match
and resume after it, otherwise advance one character.  Fuel is the input
length (every successful step consumes at least one character). -/
def scanAll (step : List Char → Option (List Char × List Char)) : Nat → List Char → List (List Char)
  | 0, _ => []
  | _ + 1, [] => []
  | n + 1, c :: cs =>
    match step (c :: cs) with
    | some (m, rest) => m :: scanAll step n rest
    | none => scanAll step n cs

/-- `MP4_RE.findall(html)` (src/app.py 137, used at 142). -/
def mp4_findall (html : String) : List String :=
  (scanAll (matchUrlToken isQuoteC) html.toList.length html.toList).map String.mk

/-- One match of `src=["\'](https?://[^"\']+\.mp4[^"\']*)` at the head;
yields group 1 (the URL). -/
def matchSrcAttr (cs : List Char) : Option (List Char × List Char) :=
  if leadCI "src=".toList cs then
    match cs.drop 4 with
    | q :: rest =>
      if isQuoteC q then matchUrlToken isQuoteC rest else none
    | [] => none
  else none

/-- `re.findall(r'src=["\'](https?://[^"\']+\.mp4[^"\']*)', html, re.I)`
(src/app.py 144): the `<source>`/`<video>` `src` attribute scan. -/
def src_findall (html : String) : List String :=
  (scanAll matchSrcAttr html.toList.length html.toList).map String.mk

/-- One match of
`property=["\']og:video["\']\s+content=["\'](https?://[^"\']+\.mp4[^"\']*)`
at the head; yields group 1.  `\s` is modelled by `Char.isWhitespace`
(Python and Lean agree on the ASCII whitespace the claims exercise). -/
def matchOg (cs : List Char) : Option (List Char × List Char) :=
  if leadCI "property=".toList cs then
    match cs.drop 9 with
    | q1 :: rest1 =>
      if isQuoteC q1 ∧ leadCI "og:video".toList rest1 then
        match rest1.drop 8 with
        | q2 :: rest2 =>
          if isQuoteC q2 then
            let (ws, rest3) := (rest2.takeWhile Char.isWhitespace, rest2.dropWhile Char.isWhitespace)
            if !ws.isEmpty ∧ leadCI "content=".toList rest3 then
              match rest3.drop 8 with
              | q3 :: rest4 =>
                if isQuoteC q3 then matchUrlToken isQuoteC rest4 else none
              | [] => none
            else none
          else none
        | [] => none
      else none
    | [] => none
  else none

/-- The OpenGraph scan (src/app.py 146). -/
def og_findall (html : String) : List String :=
  (scanAll matchOg html.toList.length html.toList).map String.mk

/-- One match of `"(https?://[^"]+\.mp4[^"]*)"` at the head: a double-quoted
JSON string holding an mp4 URL; the closing quote is required. -/
def matchJsonStr (cs : List Char) : Option (List Char × List Char) :=
  match cs with
  | '"' :: rest =>
    match matchUrlToken (fun c => c == '"') rest with
    | some (m, rest2) =>
      match rest2 with
      | '"' :: rest3 => some (m, rest3)
      | _ => none
    | none => none
  | _ => none

/-- The JSON-string scan (src/app.py 148). -/
def jsonstr_findall (html : String) : List String :=
  (scanAll matchJsonStr html.toList.length html.toList).map String.mk

/-- `_scrape_mp4_from_html` (src/app.py 139-149): the four scans run in the
order raw-regex, `src=` attributes, OpenGraph, quoted JSON strings, their
results are concatenated into `cands`, and `cands[0]` is returned (or `None`
when empty). -/
def _scrape_mp4_from_html (html : String) : Option String :=
  (mp4_findall html ++ src_findall html ++ og_findall html ++ jsonstr_findall html).head?

/-! ### Page resolution (src/app.py 151-181) -/

/-- An HTTP response as the code observes it: status code, the final URL
after redirects (`r.url`), the body text (`r.text`) and the result of
`r.json()` (`none` when decoding raises). -/
structure HttpResp where
  status : Nat
  finalUrl : String
  text : String
  jsonBody : Option JVal

/-- A network oracle for one GET endpoint: `none` models a raised transport
exception (connection error, timeout). -/
def FetchFn := String → Option HttpResp

/-- `try_once` inside `resolve_mp4_from_page` (src/app.py 154-160): fetch,
`raise_for_status` (any status ≥ 400 raises), return the final URL when it
already ends in `.mp4`, else scrape the body.  The outer `Option` is the
exception channel, the inner one the scrape result. -/
def try_once (fetch : FetchFn) (u : String) : Option (Option String) :=
  match fetch u with
  | none => none
  | some r =>
    if 400 ≤ r.status then none
    else if endsWithList ".mp4".toList (lcList r.finalUrl.toList) then some (some r.finalUrl)
    else some (_scrape_mp4_from_html r.text)

/-- One attempt of the retry loop (src/app.py 162-177): `try_once` on the
URL; on a miss (not an exception) and a path ending in `/location`, retry
once on the suffix-stripped URL; any exception is swallowed and the attempt
counts as failed. -/
def resolve_attempt (fetch : FetchFn) (url : String) : Option String :=
  match try_once fetch url with
  | none => none
  | some (some hit) => some hit
  | some none =>
    let stripped := rstripSlashes url
    if endsWithList "/location".toList stripped.toList then
      let alt := String.mk (stripped.toList.take (stripped.toList.length - 9))
      match try_once fetch alt with
      | some (some hit) => some hit
      | _ => none
    else none

/-- `resolve_mp4_from_page` (src/app.py 151-181): up to `tries` attempts
(RESOLVE_TRIES, default 6) with a fixed sleep between attempts (time is not
modelled); returns the first hit, `None` after exhaustion. -/
def resolve_mp4_from_page (fetch : FetchFn) (url : String) : Nat → Option String
  | 0 => none
  | n + 1 =>
    match resolve_attempt fetch url with
    | some hit => some hit
    | none => resolve_mp4_from_page fetch url n

/-! ### Vendor asset lookup (src/app.py 186-243) -/

/-- Case-insensitive `u.lower().endswith(".mp4")` applied only to strings
(`isinstance(u, str) and ...`). -/
def isStrEndingMp4 : JVal → Bool
  | .s v => endsWithList ".mp4".toList (lcList v.toList)
  | _ => false

/-- `"mp4" in str(m).lower()`. -/
def containsMp4CI (v : JVal) : Bool :=
  subOf "mp4".toList (lcList (pyStr v).toList)

mutual

/-- The `walk` closure of `breeze_api_find_mp4` (src/app.py 207-229): on a
mapping, first the direct url/mime field checks, then a depth-first walk of
the values in order; on a sequence, the elements in order; a bare string
matches when it ends in `.mp4`.  The first assignment to `mp4` wins. -/
def walkFind : JVal → Option JVal
  | .obj kvs =>
    let u := pyOr (pyGet kvs "url") (pyOr (pyGet kvs "href") (pyGet kvs "download_url"))
    let m := pyOr (pyGet kvs "mime") (pyOr (pyGet kvs "content_type") (pyGet kvs "type"))
    if pyTruthy u && isStrEndingMp4 u then some u
    else if pyTruthy m && containsMp4CI m && pyTruthy u then some u
    else walkPairs kvs
  | .arr xs => walkElems xs
  | .s v => if endsWithList ".mp4".toList (lcList v.toList) then some (.s v) else none
  | _ => none

/-- Walk of `obj.values()` in order (first hit wins). -/
def walkPairs : List (String × JVal) → Option JVal
  | [] => none
  | (_, v) :: rest =>
    match walkFind v with
    | some m => some m
    | none => walkPairs rest

/-- Walk of list elements in order (first hit wins). -/
def walkElems : List JVal → Option JVal
  | [] => none
  | v :: rest =>
    match walkFind v with
    | some m => some m
    | none => walkElems rest

end

/-- `re.search(MP4_RE, text)`: the first raw-regex match, used as the
fallback when the JSON walk finds nothing (src/app.py 233-237). -/
def mp4_search (text : String) : Option String :=
  (mp4_findall text).head?

/-- The process configuration read from the environment at import time
(src/app.py 18-52), after the `.strip()` normalisations applied there. -/
structure Env where
  awsRegion : String
  s3Bucket : String
  outputPrefixVal : String
  overlayS3Key : String
  makePublic : Bool
  presignTtl : Nat
  targetFps : Nat
  ffmpegBin : String
  breezeAssetsUrlTemplate : String
  breezeApiKey : String
  resolveTries : Nat

/-- `BREEZE_ASSETS_URL_TEMPLATE.format(session_id=..., gallery_id=...)`
(src/app.py 191): substitute both placeholders.  (Python substitutes them
simultaneously; sequential replacement only differs when the session id
itself contains the second placeholder, which no claim exercises.) -/
def substTemplate (t sid gid : String) : String :=
  (t.replace "\x7bsession_id\x7d" sid).replace "\x7bgallery_id\x7d" gid

/-- `breeze_api_find_mp4` (src/app.py 186-243).  Returns the found value and
the list of HTTP requests issued.  The guard
`if not (BREEZE_ASSETS_URL_TEMPLATE and BREEZE_API_KEY and session_id)`
returns `None` before any request; `r.raise_for_status()` failures and
transport exceptions are caught and yield `None`; otherwise the JSON walk
runs first and the raw-regex search of the body is the fallback. -/
def breeze_api_find_mp4 (env : Env) (sessionId galleryId : Option JVal)
    (http : FetchFn) : Option JVal × List String :=
  if env.breezeAssetsUrlTemplate ≠ "" ∧ env.breezeApiKey ≠ "" ∧ optTruthy sessionId then
    let gid := match galleryId with
      | some g => if pyTruthy g then pyStr g else ""
      | none => ""
    let url := substTemplate env.breezeAssetsUrlTemplate (pyStr (sessionId.getD .null)) gid
    match http url with
    | none => (none, [url])
    | some r =>
      if 400 ≤ r.status then (none, [url])
      else
        let viaJson := match r.jsonBody with
          | some j => walkFind j
          | none => none
        let result := if optTruthy viaJson then viaJson
          else (mp4_search r.text).map JVal.s
        (result, [url])
  else (none, [])

/-! ### Asset download (src/app.py 79-86) -/

/-- What one GET for the asset yields: whether `raise_for_status` passes and
the `iter_content` chunks (byte lists). -/
structure DlResp where
  ok : Bool
  chunks : List (List Nat)

/-- `_download` (src/app.py 79-86) run against a transport that specifies
the outcome of the k-th request that would be made for this URL.  The body
is a single `requests.get` with `raise_for_status` and a chunked write
(`if chunk:` skips empty chunks): exactly one request is made, and there is
no retry loop, backoff, or wrapping error type anywhere around it (its one
call site is src/app.py 380).  Returns the written bytes or the raised
exception, paired with the number of requests made. -/
def _download (transport : Nat → Option DlResp) : Except String (List Nat) × Nat :=
  match transport 1 with
  | none => (.error "connection error", 1)
  | some r =>
    if r.ok then (.ok (r.chunks.filter (fun c => !c.isEmpty)).flatten, 1)
    else (.error "raise_for_status", 1)

/-! ### Overlay, compositor, prober, publisher -/

/-- The effect oracles one webhook invocation consumes. -/
structure Net where
  /-- `_fetch` for page resolution (src/app.py 76-77). -/
  fetchPage : FetchFn
  /-- The authenticated GET of the vendor lookup (src/app.py 198). -/
  breezeGet : FetchFn
  /-- Success of the single-attempt `_download` of the source asset. -/
  download : String → Bool
  /-- `s3.download_file(bucket, key)` success (src/app.py 88-90). -/
  s3get : String → String → Bool
  /-- `s3.generate_presigned_url` for a key and TTL (src/app.py 104-108). -/
  presign : String → Nat → String
  /-- ffmpeg run success: exit code 0 and the output file exists. -/
  composeOk : List String → Bool

/-- `maybe_download_overlay` (src/app.py 248-258): no configured key means
no overlay; a failed S3 download is caught (`ClientError`/`BotoCoreError`),
logged, and also yields `None` — the caller proceeds without an overlay. -/
def maybe_download_overlay (env : Env) (net : Net) (workdir : String) : Option String :=
  if env.overlayS3Key = "" then none
  else
    let localPath := workdir ++ "/" ++ basename env.overlayS3Key
    if net.s3get env.s3Bucket env.overlayS3Key then some localPath else none

/-- The constant `filter_complex` graph of the overlay branch
(src/app.py 263). -/
def overlayFiltergraph : String :=
  "[0:v]format=rgba[base];[1:v]format=rgba[ol];[base][ol]overlay=0:0:format=auto:shortest=1[vout]"

/-- The argument list `compose_with_ffmpeg` builds (src/app.py 260-284).
Both branches pass `-r str(TARGET_FPS)`; nothing about the source stream is
consulted. -/
def compose_cmd (ffmpegBin : String) (targetFps : Nat) (src out : String)
    (overlay : Option String) : List String :=
  match overlay with
  | some ol =>
    [ffmpegBin, "-y", "-loglevel", "error",
     "-i", src, "-i", ol,
     "-filter_complex", overlayFiltergraph,
     "-map", "[vout]", "-map", "0:a?",
     "-c:v", "libx264", "-pix_fmt", "yuv420p",
     "-r", Nat.repr targetFps,
     "-movflags", "+faststart",
     "-c:a", "aac", "-b:a", "128k",
     out]
  | none =>
    [ffmpegBin, "-y", "-loglevel", "error",
     "-i", src,
     "-c:v", "libx264", "-pix_fmt", "yuv420p",
     "-r", Nat.repr targetFps,
     "-movflags", "+faststart",
     "-c:a", "aac", "-b:a", "128k",
     out]

/-- `TARGET_FPS = int(os.getenv("TARGET_FPS", "20"))` (src/app.py 29): the
numeric value of the environment variable when set, else 20. -/
def targetFpsOfEnv (v : Option Nat) : Nat := v.getD 20

/-- `"n/d".split("/")`: split a character list at every slash (Python
`str.split` with an explicit separator keeps empty fields). -/
def splitOnSlash (cs : List Char) : List (List Char) :=
  match cs with
  | [] => [[]]
  | c :: rest =>
    let r := splitOnSlash rest
    if c == '/' then [] :: r
    else
      match r with
      | [] => [[c]]
      | h :: t => (c :: h) :: t

/-- `float(s)` on the plain decimal literals `avg_frame_rate` components
take (digits with an optional single fractional point, optional leading
minus); anything else raises, modelled as `none`. -/
def pyFloat? (cs : List Char) : Option ℚ :=
  let core : List Char → Option ℚ := fun cs =>
    let ip := cs.takeWhile Char.isDigit
    let rest := cs.dropWhile Char.isDigit
    if ip.isEmpty then none
    else
      let ipv : ℚ := (ip.foldl (fun a c => a * 10 + (c.toNat - '0'.toNat)) 0 : Nat)
      match rest with
      | [] => some ipv
      | '.' :: frac =>
        if frac.all Char.isDigit then
          let fv : ℚ := (frac.foldl (fun a c => a * 10 + (c.toNat - '0'.toNat)) 0 : Nat)
          some (ipv + fv / ((10 : ℚ) ^ frac.length))
        else none
      | _ => none
  match cs with
  | '-' :: rest => (core rest).map (fun q => -q)
  | _ => core cs

/-- Python `round(nv/dv, 3)` expressed in integer thousandths (the result of
a round to three decimals is exactly an integer count of thousandths, which
keeps the arithmetic on ℤ).  With `x = nv/dv` written as the integer
fraction `p/q` (`q > 0` after sign normalisation), `f = 1000*x`,
`n = ⌊f⌋ = fdiv (1000*p) q` and fractional part `r = f - n`, the result is
`n` when `r < 1/2`, `n+1` when `r > 1/2`, and the even neighbour at exactly
one half (Python rounds half to even); `r` against `1/2` becomes
`2*(1000*p - n*q)` against `q`. -/
def roundHalfEvenMilli (nv dv : ℚ) : Int :=
  let p0 := nv.num * (dv.den : Int)
  let q0 := (nv.den : Int) * dv.num
  let p := if q0 < 0 then -p0 else p0
  let q := if q0 < 0 then -q0 else q0
  let n := Int.fdiv (1000 * p) q
  let r2 := 2 * (1000 * p - n * q)
  if r2 < q then n
  else if q < r2 then n + 1
  else if n % 2 = 0 then n else n + 1

/-- The `avg_frame_rate` parsing of `ffprobe_meta` (src/app.py 123-128),
with the reported frame rate in integer thousandths: split on `/`; any
unpack or float failure, and a zero denominator, fall back to `TARGET_FPS`
(i.e. `1000 * targetFps` thousandths); otherwise `round(n/d, 3)`. -/
def fps_val_milli (s : String) (targetFps : Nat) : Int :=
  match splitOnSlash s.toList with
  | [a, b] =>
    match pyFloat? a, pyFloat? b with
    | some nv, some dv =>
      if dv ≠ 0 then roundHalfEvenMilli nv dv else 1000 * (targetFps : Int)
    | _, _ => 1000 * (targetFps : Int)
  | _ => 1000 * (targetFps : Int)

/-- The deterministic public object URL of the `MAKE_PUBLIC` branch
(src/app.py 102). -/
def publicObjectUrl (env : Env) (bucket key : String) : String :=
  "https://" ++ bucket ++ ".s3." ++ env.awsRegion ++ ".amazonaws.com/" ++ key

/-- The URL-selection tail of `s3_upload` (src/app.py 100-109): public URL
when `MAKE_PUBLIC`, else a presigned URL when `PRESIGN_TTL > 0`, else the
bare `s3://` URI. -/
def s3_upload_url (env : Env) (bucket key : String) (presign : String → Nat → String) : String :=
  if env.makePublic then publicObjectUrl env bucket key
  else if 0 < env.presignTtl then presign key env.presignTtl
  else "s3://" ++ bucket ++ "/" ++ key

/-! ### The webhook pipeline (src/app.py 335-399) -/

/-- `uid = payload.get("id") or payload.get("eventkitesessionid") or
str(int(time.time()))` (src/app.py 347-351), with `now` the integer clock
reading. -/
def deriveUid (payload : List (String × JVal)) (now : Nat) : JVal :=
  pyOr (pyGet payload "id") (pyOr (pyGet payload "eventkitesessionid") (JVal.s (Nat.repr now)))

/-- Which of the three resolution branches produced the URL (an annotation
of the control flow in src/app.py 355-369; the code itself carries no tag). -/
inductive SrcKind where
  | direct
  | page
  | vendor
deriving Repr, DecidableEq

/-- Step 1 of resolution (src/app.py 356-359): the value under `mp4_url`
when it is a string containing `.mp4`. -/
def step1 (payload : List (String × JVal)) : Option JVal :=
  match getOpt payload "mp4_url" with
  | some (.s u) => if subOf ".mp4".toList u.toList then some (.s u) else none
  | _ => none

/-- Step 2 of resolution for one key (src/app.py 361-365): when the value
under the key is a string, resolve it as a landing page. -/
def pageStep (env : Env) (net : Net) (payload : List (String × JVal)) (k : String) : Option JVal :=
  match getOpt payload k with
  | some (.s pu) => (resolve_mp4_from_page net.fetchPage pu env.resolveTries).map JVal.s
  | _ => none

/-- Step 3 of resolution (src/app.py 367-369): the vendor lookup. -/
def vendorStep (env : Env) (net : Net) (payload : List (String × JVal)) : Option JVal :=
  (breeze_api_find_mp4 env (getOpt payload "eventkitesessionid")
    (getOpt payload "eventkitegalleryid") net.breezeGet).1

/-- `if not mp4_url:` chaining: keep a truthy value, otherwise fall through
to the next step. -/
def pick (v : Option JVal) (k : SrcKind) (next : Option (JVal × SrcKind)) : Option (JVal × SrcKind) :=
  match v with
  | some x => if pyTruthy x then some (x, k) else next
  | none => next

/-- The full source-resolution chain of the webhook (src/app.py 355-369):
`mp4_url` direct, then `media_url` and `image_url` page resolution, then the
vendor lookup; the first truthy result wins. -/
def resolveSource (env : Env) (net : Net) (payload : List (String × JVal)) : Option (JVal × SrcKind) :=
  pick (step1 payload) .direct
    (pick (pageStep env net payload "media_url") .page
      (pick (pageStep env net payload "image_url") .page
        (pick (vendorStep env net payload) .vendor none)))

/-- The outcome the webhook hands back: the 200 `ignored` body with its
reason, the 200 `ok` body (uid and processed URL), or an uncaught exception
(Flask's 500). -/
inductive Outcome where
  | ignored (reason : String)
  | ok (uid : JVal) (processedUrl : String)
  | exn (msg : String)
deriving Repr

/-- The observable side effects of one webhook invocation: URLs passed to
`_download`, the overlay argument of each `compose_with_ffmpeg` call, and
the S3 keys uploaded. -/
structure Trace where
  downloads : List String
  composes : List (Option String)
  uploads : List String
deriving Repr

/-- The `webhook` handler (src/app.py 335-399) from the decoded payload on:
derive the uid, resolve a source, and either return `ignored` (before any
download) or download, fetch the overlay best-effort, compose, upload, and
return `ok` with the policy-chosen URL.  Failures of `_download` or of
ffmpeg propagate (`exn`).  The post-back and metadata probe only decorate
the `ok` body and are not needed by any claim, so the model elides them. -/
def webhook (env : Env) (net : Net) (payload : List (String × JVal)) (now : Nat) : Outcome × Trace :=
  let uid := deriveUid payload now
  match resolveSource env net payload with
  | none => (.ignored "no_mp4", ⟨[], [], []⟩)
  | some (JVal.s mp4url, _) =>
    if net.download mp4url then
      let overlay := maybe_download_overlay env net "/tmp/job"
      let outPath := "/tmp/job/" ++ pyStr uid ++ "_final.mp4"
      let cmd := compose_cmd env.ffmpegBin env.targetFps "/tmp/job/source.mp4" outPath overlay
      if net.composeOk cmd then
        let key := rstripSlashes env.outputPrefixVal ++ "/" ++ pyStr uid ++ "_final.mp4"
        let url := s3_upload_url env env.s3Bucket key net.presign
        (.ok uid url, ⟨[mp4url], [overlay], [key]⟩)
      else (.exn "ffmpeg failed", ⟨[mp4url], [overlay], []⟩)
    else (.exn "download failed", ⟨[mp4url], [], []⟩)
  | some (_, _) => (.exn "invalid url type", ⟨[], [], []⟩)

/-! ### Concrete configurations, oracles and inputs used by the witnesses
and counterexamples below. -/

/-- A configuration with an overlay key set and default URL policy
(`MAKE_PUBLIC` false, `PRESIGN_TTL` 43200). -/
def cEnv : Env :=
  ⟨"us-east-2", "bkt", "renders/", "ol.mov", false, 43200, 20, "ffmpeg", "", "", 6⟩

/-- Oracles for the overlay-failure scenario: the asset download and the
ffmpeg run succeed, but the overlay S3 download fails. -/
def cNet : Net :=
  ⟨fun _ => none, fun _ => none, fun _ => true, fun _ _ => false,
   fun k _ => "SIGNED:" ++ k, fun _ => true⟩

/-- A payload carrying a direct mp4 URL. -/
def cPayload : List (String × JVal) := [("mp4_url", JVal.s "https://x.example/a.mp4")]

/-- A configuration with no overlay, no vendor endpoint, default policy. -/
def c4Env : Env :=
  ⟨"us-east-2", "bkt", "renders/", "", false, 43200, 20, "ffmpeg", "", "", 6⟩

/-- Oracles on which every network and subprocess action fails. -/
def c4Net : Net :=
  ⟨fun _ => none, fun _ => none, fun _ => false, fun _ _ => false,
   fun _ _ => "", fun _ => false⟩

/-- A payload whose only media URL sits three container levels deep. -/
def c5Payload : List (String × JVal) :=
  [("data", JVal.obj [("level1", JVal.obj [("level2", JVal.obj
    [("video", JVal.s "https://cdn.example/deep.mp4")])])])]

/-- HTML in which a raw mp4 URL occurs in the body text before a
`<source src=...>` element that names a different mp4 URL. -/
def c6Html : String :=
  "<div data-url=\"https://a.example/first.mp4\"></div><video><source src=\"https://b.example/second.mp4\"></video>"

/-- Oracles for the no-source scenario: the landing page fetch succeeds but
its HTML holds no video markup, no og:video tag, and no mp4-shaped string. -/
def c7Net : Net :=
  ⟨fun _ => some ⟨200, "https://cdn.example/page", "<html><body>No video here</body></html>", none⟩,
   fun _ => none, fun _ => false, fun _ _ => false, fun _ _ => "", fun _ => false⟩

/-- The spec's end-to-end ignored scenario payload. -/
def c7Payload : List (String × JVal) :=
  [("uid", JVal.s ""), ("media_url", JVal.s "https://cdn.example/page")]

/-- A transport that fails on the first two requests and would succeed on
the third. -/
def flakyTransport : Nat → Option DlResp :=
  fun k => if 3 ≤ k then some ⟨true, [[104, 105]]⟩ else none

/-- A configuration with the vendor endpoint template and credential both
set. -/
def breezeEnvW : Env :=
  ⟨"us-east-2", "bkt", "renders/", "", false, 43200, 20, "ffmpeg",
   "https://vendor.example/api/\x7bsession_id\x7d/assets", "KEY123", 6⟩

/-- A configuration with the public-read policy and presigning both
enabled. -/
def pubEnvW : Env :=
  ⟨"us-east-2", "bkt", "renders/", "", true, 43200, 20, "ffmpeg", "", "", 6⟩

/-! ## Helper lemmas -/

/-- `Nat.toDigitsCore` never shrinks a nonempty accumulator to nil. -/
theorem toDigitsCore_ne_nil (b : Nat) :
    ∀ (fuel n : Nat) (ds : List Char), ds ≠ [] → Nat.toDigitsCore b fuel n ds ≠ []
  | 0, _, _, h => by simpa [Nat.toDigitsCore] using h
  | fuel + 1, n, ds, h => by
    by_cases h0 : n / b = 0
    · simp [Nat.toDigitsCore, h0]
    · simp only [Nat.toDigitsCore, h0, if_false]
      exact toDigitsCore_ne_nil b fuel _ _ (by simp)

/-- The decimal rendering of a natural number is never the empty string. -/
theorem natRepr_ne_empty (n : Nat) : Nat.repr n ≠ "" := by
  intro h
  have hd : Nat.toDigitsCore 10 (n + 1) n [] = [] := by
    have h2 := congrArg String.data h
    simpa [Nat.repr, Nat.toDigits, List.asString] using h2
  revert hd
  by_cases h0 : n / 10 = 0
  · simp [Nat.toDigitsCore, h0]
  · simp only [Nat.toDigitsCore, h0, if_false]
    exact toDigitsCore_ne_nil 10 _ _ _ (by simp)

/-- A Python `or` chain whose last operand is not the empty string never
produces the empty string: a truthy left operand is by definition not empty. -/
theorem pyOr_ne_sEmpty (a b : JVal) (hb : b ≠ JVal.s "") : pyOr a b ≠ JVal.s "" := by
  unfold pyOr
  split
  · next h => intro e; subst e; simp [pyTruthy] at h
  · exact hb

/-- A pattern is a prefix of itself extended by anything. -/
theorem leadEq_self_append (p t : List Char) : leadEq p (p ++ t) = true := by
  induction p with
  | nil => simp [leadEq]
  | cons a as ih => simp [leadEq, ih]

/-- A pattern occurs in any list that contains it as a contiguous block. -/
theorem subOf_of_parts (pat s t : List Char) : subOf pat (s ++ (pat ++ t)) = true := by
  induction s with
  | nil =>
    cases pat with
    | nil =>
      cases t with
      | nil => rfl
      | cons c cs => simp [subOf, leadEq]
    | cons p ps =>
      simp only [subOf, Bool.or_eq_true]
      exact Or.inl (by simpa using leadEq_self_append (p :: ps) t)
  | cons c cs ih => simp [subOf, ih]

/-- A failed (or unconfigured) overlay S3 download makes
`maybe_download_overlay` return `None`. -/
theorem maybe_overlay_none (env : Env) (net : Net) (w : String)
    (h : net.s3get env.s3Bucket env.overlayS3Key = false) :
    maybe_download_overlay env net w = none := by
  unfold maybe_download_overlay
  split
  · rfl
  · simp [h]

/-! ## Claim C9 -/

/-- C9: identifier derivation treats falsy values as absent — an explicit
`id` field holding the empty string is skipped, the uid falls back to the
vendor session id and then to the timestamp string, and the derived uid is
never the empty string. -/
theorem C9_uid_never_empty (payload : List (String × JVal)) (now : Nat) :
    (getOpt payload "id" = some (JVal.s "") →
      deriveUid payload now = pyOr (pyGet payload "eventkitesessionid") (JVal.s (Nat.repr now))) ∧
    deriveUid payload now ≠ JVal.s "" := by
  constructor
  · intro h
    unfold deriveUid
    rw [show pyGet payload "id" = JVal.s "" from by simp [pyGet, h]]
    simp [pyOr, pyTruthy]
  · unfold deriveUid
    apply pyOr_ne_sEmpty
    apply pyOr_ne_sEmpty
    intro e
    exact natRepr_ne_empty now (by injection e)

/-- Witness for C9: a payload with an empty `id` and a session id derives
the session id, not the empty string. -/
theorem C9_witness :
    deriveUid [("id", JVal.s ""), ("eventkitesessionid", JVal.s "sess9")] 7 = JVal.s "sess9" ∧
    deriveUid [("id", JVal.s ""), ("eventkitesessionid", JVal.s "sess9")] 7 ≠ JVal.s "" := by
  have h := C9_uid_never_empty [("id", JVal.s ""), ("eventkitesessionid", JVal.s "sess9")] 7
  refine ⟨?_, h.2⟩
  rw [h.1 rfl]
  rfl

/-! ## Claim C10 -/

/-- C10: the vendor asset lookup returns `None` immediately and issues no
HTTP request whenever the session id is missing or empty, regardless of the
configured endpoint template, credential, gallery id, or what the network
would answer. -/
theorem C10_no_lookup_without_session (env : Env) (gid : Option JVal) (http : FetchFn)
    (sid : Option JVal) (h : sid = none ∨ sid = some (JVal.s "")) :
    breeze_api_find_mp4 env sid gid http = (none, []) := by
  rcases h with h | h <;> subst h <;>
    simp [breeze_api_find_mp4, optTruthy, pyTruthy]

/-- Witness for C10: endpoint template and credential configured, a gallery
id present, the network ready to answer with an mp4 — the lookup with an
empty session id still returns `None` with no request issued. -/
theorem C10_witness :
    breeze_api_find_mp4 breezeEnvW (some (JVal.s "")) (some (JVal.s "g77"))
      (fun _ => some ⟨200, "https://vendor.example/api//assets",
        "https://v.example/a.mp4", some (JVal.s "https://v.example/a.mp4")⟩) = (none, []) :=
  C10_no_lookup_without_session breezeEnvW (some (JVal.s "g77")) _ (some (JVal.s "")) (Or.inr rfl)

/-! ## Claim C3 -/

/-- C3: URL selection after upload follows the fixed precedence
public > presigned > raw — with the public policy enabled the returned URL
is the deterministic public object URL and is independent of the presigning
function (never presigned, even when presigning is enabled); otherwise a
non-zero presign TTL yields the presigned URL; otherwise the bare s3 URI. -/
theorem C3_url_precedence (env : Env) (bucket key : String) (p p' : String → Nat → String) :
    (env.makePublic = true →
      s3_upload_url env bucket key p = publicObjectUrl env bucket key ∧
      s3_upload_url env bucket key p = s3_upload_url env bucket key p') ∧
    (env.makePublic = false → 0 < env.presignTtl →
      s3_upload_url env bucket key p = p key env.presignTtl) ∧
    (env.makePublic = false → env.presignTtl = 0 →
      s3_upload_url env bucket key p = "s3://" ++ bucket ++ "/" ++ key) := by
  refine ⟨fun h => ?_, fun h h2 => ?_, fun h h2 => ?_⟩
  · simp [s3_upload_url, h]
  · simp [s3_upload_url, h, h2]
  · simp [s3_upload_url, h, h2]

/-- Witness for C3: with the public policy and presigning both enabled the
URL is the deterministic public form and does not change when the presigning
function changes. -/
theorem C3_witness :
    s3_upload_url pubEnvW "bkt" "renders/k.mp4" (fun _ _ => "SIGNED") =
      "https://bkt.s3.us-east-2.amazonaws.com/renders/k.mp4" ∧
    s3_upload_url pubEnvW "bkt" "renders/k.mp4" (fun _ _ => "SIGNED") =
      s3_upload_url pubEnvW "bkt" "renders/k.mp4" (fun _ _ => "OTHERSIGN") := by
  have h := (C3_url_precedence pubEnvW "bkt" "renders/k.mp4"
    (fun _ _ => "SIGNED") (fun _ _ => "OTHERSIGN")).1 rfl
  exact ⟨h.1.trans (by rfl), h.2⟩

/-! ## Claim C2 -/

/-- Counterexample to C2: against a transport that fails twice and would
succeed on the third request, `_download` does not retry — it raises after
exactly one request (the claim demands a successful fetch with three
attempts observed). -/
theorem C2_counterexample :
    flakyTransport 1 = none ∧ flakyTransport 2 = none ∧
    (flakyTransport 3).isSome = true ∧
    _download flakyTransport = (Except.error "connection error", 1) :=
  ⟨rfl, rfl, rfl, rfl⟩

/-- C2 (amended): `_download` performs exactly one attempt — its outcome
depends only on the first request, with no retry, backoff, or wrapping
error type. -/
theorem C2_single_attempt (t u : Nat → Option DlResp) (h : t 1 = u 1) :
    _download t = _download u ∧ (_download t).2 = 1 := by
  constructor
  · unfold _download
    rw [h]
  · unfold _download
    cases t 1 with
    | none => rfl
    | some r => cases hr : r.ok <;> simp [hr]

/-- Witness for C2 (amended): the flaky transport and an always-failing
transport agree on the first request, so `_download` cannot tell them
apart, and one attempt is made. -/
theorem C2_witness :
    _download flakyTransport = _download (fun _ => none) ∧
    (_download flakyTransport).2 = 1 :=
  C2_single_attempt flakyTransport (fun _ => none) rfl

/-! ## Claim C7 -/

/-- C7: when direct extraction, page resolution and the vendor lookup all
yield no media URL, the webhook returns the successful `ignored` outcome
with reason `no_mp4` and attempts no download. -/
theorem C7_no_source_ignored (env : Env) (net : Net) (payload : List (String × JVal)) (now : Nat)
    (h : resolveSource env net payload = none) :
    (webhook env net payload now).1 = Outcome.ignored "no_mp4" ∧
    (webhook env net payload now).2.downloads = [] := by
  refine ⟨?_, ?_⟩ <;> simp only [webhook, h]

/-- Witness for C7: the spec's end-to-end scenario — a payload with an
empty uid and a landing-page URL whose HTML has no video markup — ends
`ignored` with no download. -/
theorem C7_witness :
    (webhook c4Env c7Net c7Payload 99).1 = Outcome.ignored "no_mp4" ∧
    (webhook c4Env c7Net c7Payload 99).2.downloads = [] :=
  C7_no_source_ignored c4Env c7Net c7Payload 99 rfl

/-! ## Claim C1 -/

/-- Counterexample to C1: the overlay key is configured and its S3 download
fails, yet the job does not fail with any overlay error — it composites
without the overlay (`compose` receives `None`), uploads, and returns `ok`. -/
theorem C1_counterexample :
    cEnv.overlayS3Key = "ol.mov" ∧
    cNet.s3get cEnv.s3Bucket cEnv.overlayS3Key = false ∧
    webhook cEnv cNet cPayload 5 =
      (Outcome.ok (JVal.s "5") "SIGNED:renders/5_final.mp4",
       ⟨["https://x.example/a.mp4"], [none], ["renders/5_final.mp4"]⟩) :=
  ⟨rfl, rfl, rfl⟩

/-- C1 (amended): when obtaining the overlay fails (or none is configured),
the failure is swallowed: the job composites with no overlay and still
publishes and returns `ok`; no overlay error terminates it. -/
theorem C1_overlay_failure_proceeds (env : Env) (net : Net) (payload : List (String × JVal))
    (now : Nat) (u : String) (k : SrcKind)
    (hres : resolveSource env net payload = some (JVal.s u, k))
    (hdl : net.download u = true)
    (hol : net.s3get env.s3Bucket env.overlayS3Key = false)
    (henc : ∀ c, net.composeOk c = true) :
    (∃ uid url, (webhook env net payload now).1 = Outcome.ok uid url) ∧
    (webhook env net payload now).2.composes = [none] := by
  simp only [webhook, hres, hdl, maybe_overlay_none env net _ hol, henc, if_true]
  exact ⟨⟨_, _, rfl⟩, trivial⟩

/-- Witness for C1 (amended): the concrete overlay-failure scenario
proceeds to an `ok` outcome with `compose` receiving no overlay. -/
theorem C1_witness :
    (∃ uid url, (webhook cEnv cNet cPayload 5).1 = Outcome.ok uid url) ∧
    (webhook cEnv cNet cPayload 5).2.composes = [none] :=
  C1_overlay_failure_proceeds cEnv cNet cPayload 5 "https://x.example/a.mp4" SrcKind.direct
    rfl rfl rfl (fun _ => rfl)

/-! ## Claim C4 -/

/-- Counterexample to C4: `media_url` is a well-known top-level key and its
value ends in the canonical extension, yet extraction does not return that
string — the code always treats `media_url` as a landing page, and with the
page fetch failing the job resolves nothing. -/
theorem C4_counterexample :
    endsWithList ".mp4".toList (lcList "https://cdn.example/clip.mp4".toList) = true ∧
    resolveSource c4Env c4Net [("media_url", JVal.s "https://cdn.example/clip.mp4")] = none :=
  ⟨rfl, rfl⟩

/-- C4 (amended): only the top-level key `mp4_url` is classified direct —
whenever its value is a string ending in `.mp4` up to an optional trailing
query string, extraction returns exactly that string, classified direct. -/
theorem C4_amended_direct (env : Env) (net : Net) (payload : List (String × JVal))
    (u : String) (b q : List Char)
    (hget : getOpt payload "mp4_url" = some (JVal.s u))
    (hu : u.toList = b ++ q)
    (hb : ∃ s, b = s ++ ".mp4".toList)
    (hq : q = [] ∨ ∃ r, q = '?' :: r) :
    resolveSource env net payload = some (JVal.s u, SrcKind.direct) := by
  obtain ⟨s, rfl⟩ := hb
  have hsub : subOf ".mp4".toList u.toList = true := by
    rw [hu, List.append_assoc]
    exact subOf_of_parts _ s q
  have hne : (u == "") = false := by
    cases he : u == ""
    · rfl
    · exfalso
      have he' : u = "" := eq_of_beq he
      rw [he'] at hu
      have h0 := congrArg List.length hu
      have h4 : (".mp4".toList).length = 4 := rfl
      simp [List.length_append] at h0
      omega
  have hsub' : subOf ['.', 'm', 'p', '4'] u.data = true := hsub
  have hstep : step1 payload = some (JVal.s u) := by
    simp [step1, hget, hsub, hsub']
  have ht : pyTruthy (JVal.s u) = true := by simp [pyTruthy, hne]
  unfold resolveSource
  rw [hstep]
  simp [pick, ht]

/-- Witness for C4 (amended): an `mp4_url` value with a trailing query
string is returned unchanged and classified direct. -/
theorem C4_witness :
    resolveSource c4Env c4Net [("mp4_url", JVal.s "https://cdn.example/clip.mp4?sig=1")] =
      some (JVal.s "https://cdn.example/clip.mp4?sig=1", SrcKind.direct) :=
  C4_amended_direct c4Env c4Net _ _
    ("https://cdn.example/clip".toList ++ ".mp4".toList) "?sig=1".toList
    rfl (by rfl) ⟨"https://cdn.example/clip".toList, rfl⟩
    (Or.inr ⟨"sig=1".toList, by rfl⟩)

/-! ## Claim C5 -/

/-- Counterexample to C5: a payload whose only matching media URL is nested
three levels deep inside the container key `data` resolves to nothing —
extraction never recurses into the payload. -/
theorem C5_counterexample :
    subOf ".mp4".toList "https://cdn.example/deep.mp4".toList = true ∧
    resolveSource c4Env c4Net c5Payload = none :=
  ⟨rfl, rfl⟩

/-- C5 (amended): source resolution consults only the top-level keys
`mp4_url`, `media_url`, `image_url` and `eventkitesessionid`; when none of
them is present, resolution yields nothing no matter what is nested inside
container keys. -/
theorem C5_no_recursive_search (env : Env) (net : Net) (payload : List (String × JVal))
    (h1 : getOpt payload "mp4_url" = none)
    (h2 : getOpt payload "media_url" = none)
    (h3 : getOpt payload "image_url" = none)
    (h4 : getOpt payload "eventkitesessionid" = none) :
    resolveSource env net payload = none := by
  unfold resolveSource
  rw [show step1 payload = none from by simp [step1, h1]]
  rw [show pageStep env net payload "media_url" = none from by simp [pageStep, h2]]
  rw [show pageStep env net payload "image_url" = none from by simp [pageStep, h3]]
  rw [show vendorStep env net payload = none from by
    simp [vendorStep, breeze_api_find_mp4, h4, optTruthy]]
  rfl

/-- Witness for C5 (amended): the deeply nested payload resolves to
nothing. -/
theorem C5_witness : resolveSource c4Env c4Net c5Payload = none :=
  C5_no_recursive_search c4Env c4Net c5Payload rfl rfl rfl rfl

/-! ## Claim C6 -/

/-- Counterexample to C6: the only `src`-attribute URL in the page is
`second.mp4`, which the claimed order (element `src` first, raw regex last)
would return — but the scrape returns `first.mp4`, the first raw-regex
match of the body. -/
theorem C6_counterexample :
    src_findall c6Html = ["https://b.example/second.mp4"] ∧
    og_findall c6Html = [] ∧
    _scrape_mp4_from_html c6Html = some "https://a.example/first.mp4" ∧
    some "https://a.example/first.mp4" ≠ some "https://b.example/second.mp4" := by
  refine ⟨rfl, rfl, rfl, by decide⟩

/-- C6 (amended): the scan order is raw regex over the whole body first,
then `src` attributes, then `og:video`, then quoted JSON strings (and there
is no `<a href>` stage) — so whenever the raw regex finds any match, its
first match is what the scrape returns. -/
theorem C6_raw_scan_first (html : String) (u : String) (rest : List String)
    (h : mp4_findall html = u :: rest) :
    _scrape_mp4_from_html html = some u := by
  unfold _scrape_mp4_from_html
  rw [h]
  rfl

/-- Witness for C6 (amended): a body whose raw scan finds one URL returns
that URL. -/
theorem C6_witness :
    _scrape_mp4_from_html "x \"https://x.example/v.mp4\" y" = some "https://x.example/v.mp4" :=
  C6_raw_scan_first _ "https://x.example/v.mp4" [] rfl

/-! ## Claim C8 -/

/-- Counterexample to C8: with the frame-rate variable unset the configured
value is the default 20, and even though probing the source stream would
yield 30 (`avg_frame_rate` of `30/1`, i.e. 30000 thousandths), the encode
command pins `-r 20`; the probed rate appears nowhere in the command. -/
theorem C8_counterexample :
    targetFpsOfEnv none = 20 ∧
    fps_val_milli "30/1" 20 = 30000 ∧
    (∃ pre post, compose_cmd "ffmpeg" (targetFpsOfEnv none) "src.mp4" "out.mp4" none =
      pre ++ ["-r", "20"] ++ post) ∧
    ¬ "30" ∈ compose_cmd "ffmpeg" (targetFpsOfEnv none) "src.mp4" "out.mp4" none := by
  refine ⟨rfl, by decide, ?_, by decide⟩
  exact ⟨["ffmpeg", "-y", "-loglevel", "error", "-i", "src.mp4",
          "-c:v", "libx264", "-pix_fmt", "yuv420p"],
         ["-movflags", "+faststart", "-c:a", "aac", "-b:a", "128k", "out.mp4"], rfl⟩

/-- C8 (amended): the encode frame rate is always the configured target
(`-r TARGET_FPS` in both command shapes, default 20 when the variable is
unset); the source stream is never probed to choose it — the probe-and-
fall-back-to-TARGET_FPS logic belongs to the reported metadata, where a
zero denominator falls back to the configured target. -/
theorem C8_fps_always_config (bin : String) (t : Nat) (src out : String) (ol : Option String) (tp : Nat) :
    (∃ pre post, compose_cmd bin t src out ol = pre ++ ["-r", Nat.repr t] ++ post) ∧
    fps_val_milli "30/0" tp = 1000 * (tp : Int) := by
  constructor
  · cases ol with
    | some o =>
      exact ⟨[bin, "-y", "-loglevel", "error", "-i", src, "-i", o,
              "-filter_complex", overlayFiltergraph, "-map", "[vout]", "-map", "0:a?",
              "-c:v", "libx264", "-pix_fmt", "yuv420p"],
             ["-movflags", "+faststart", "-c:a", "aac", "-b:a", "128k", out], rfl⟩
    | none =>
      exact ⟨[bin, "-y", "-loglevel", "error", "-i", src,
              "-c:v", "libx264", "-pix_fmt", "yuv420p"],
             ["-movflags", "+faststart", "-c:a", "aac", "-b:a", "128k", out], rfl⟩
  · rfl

end CloudRenderer
